import Mathlib

/-!
Shallow embedding of the chat hub (src/chat/connection.py, src/chat/main.py):
the in-memory ConnectionManager (room registry + per-group shared video state),
the websocket endpoint's frame-processing loop, and the Redis notification
bridge.  Connections are identified by natural numbers; time is an explicit
`now : Nat` parameter; playback positions (JSON float seconds) are carried
opaquely as `Int` since the source never computes with them, only stores and
forwards them; a store append that fails is modelled by a `storeOk : Bool`
flag (Motor's `insert_one` raises on failure); a failing `send_json` on
connection `c` is modelled by `fails c = true`.
-/

/-- One group's video-state dict
`{video_name, video_time, is_playing, last_updated}`; every key may be absent
(`group_video_state[g]` starts as the empty dict `{}`). -/
structure VideoState where
  video_name : Option String
  video_time : Option Int
  is_playing : Option Bool
  last_updated : Option Nat
deriving Repr, DecidableEq

/-- The freshly created empty dict `self.group_video_state[group_id] = {}`. -/
def VideoState.empty : VideoState := ⟨none, none, none, none⟩

/-- Association-list lookup, the dict read `d[g]` / `d.get(g)`. -/
def alookup (g : Nat) : List (Nat × α) → Option α
  | [] => none
  | (k, v) :: rest => if k = g then some v else alookup g rest

/-- Dict deletion `del d[g]` (removes every binding of the key). -/
def aerase (g : Nat) (l : List (Nat × α)) : List (Nat × α) :=
  l.filter (fun p => p.1 ≠ g)

/-- Dict write `d[g] = v`. -/
def aset (g : Nat) (v : α) (l : List (Nat × α)) : List (Nat × α) :=
  (g, v) :: aerase g l

@[simp] theorem alookup_nil (g : Nat) : alookup g ([] : List (Nat × α)) = none := rfl

@[simp] theorem alookup_aset_self (g : Nat) (v : α) (l : List (Nat × α)) :
    alookup g (aset g v l) = some v := by
  simp [aset, alookup]

theorem alookup_aerase (g g' : Nat) (l : List (Nat × α)) :
    alookup g (aerase g' l) = if g = g' then none else alookup g l := by
  induction l with
  | nil => simp [aerase]
  | cons p rest ih =>
    obtain ⟨k, v⟩ := p
    by_cases hk : k = g'
    · have h1 : aerase g' ((k, v) :: rest) = aerase g' rest := by
        simp [aerase, hk]
      rw [h1, ih]
      by_cases hg : g = g'
      · simp [hg]
      · have hkg : ¬k = g := by omega
        simp [alookup, hg, hkg]
    · have h1 : aerase g' ((k, v) :: rest) = (k, v) :: aerase g' rest := by
        simp [aerase, hk]
      rw [h1]
      by_cases hkg : k = g
      · have hg : ¬g = g' := by omega
        simp [alookup, hkg, hg]
      · simp [alookup, hkg, ih]

@[simp] theorem alookup_aerase_self (g : Nat) (l : List (Nat × α)) :
    alookup g (aerase g l) = none := by
  simp [alookup_aerase]

theorem alookup_aerase_ne (g g' : Nat) (h : g ≠ g') (l : List (Nat × α)) :
    alookup g (aerase g' l) = alookup g l := by
  simp [alookup_aerase, h]

theorem alookup_aset_ne (g g' : Nat) (h : g ≠ g') (v : α) (l : List (Nat × α)) :
    alookup g (aset g' v l) = alookup g l := by
  have h' : ¬g' = g := fun hh => h hh.symm
  simp [aset, alookup, h', alookup_aerase_ne g g' h]

/-- The in-memory manager: `active_connections : {group_id: [ws, ...]}` and
`group_video_state : {group_id: video-state dict}`. -/
structure ConnectionManager where
  active_connections : List (Nat × List Nat)
  group_video_state : List (Nat × VideoState)
deriving Repr, DecidableEq

def ConnectionManager.empty : ConnectionManager := ⟨[], []⟩

/-- `connect`: accept and append the websocket to the group's list, creating
the list when the group is absent. -/
def ConnectionManager.connect (m : ConnectionManager) (ws g : Nat) : ConnectionManager :=
  match alookup g m.active_connections with
  | none => { m with active_connections := aset g [ws] m.active_connections }
  | some l => { m with active_connections := aset g (l ++ [ws]) m.active_connections }

/-- Python `list.remove`: drop the first occurrence, `none` models the
`ValueError` raised when the element is absent. -/
def removeFirst (x : Nat) : List Nat → Option (List Nat)
  | [] => none
  | y :: rest =>
    if y = x then some rest
    else match removeFirst x rest with
         | none => none
         | some rest' => some (y :: rest')

/-- `disconnect`: no-op if the group key is absent; otherwise `list.remove`
(which raises `ValueError`, modelled `Except.error ()`, when the websocket is
not in the list); when the list becomes empty, delete the group entry and its
video state. -/
def ConnectionManager.disconnect (m : ConnectionManager) (ws g : Nat) :
    Except Unit ConnectionManager :=
  match alookup g m.active_connections with
  | none => .ok m
  | some l =>
    match removeFirst ws l with
    | none => .error ()
    | some l' =>
      if l' = [] then
        .ok { active_connections := aerase g m.active_connections,
              group_video_state := aerase g m.group_video_state }
      else
        .ok { m with active_connections := aset g l' m.active_connections }

/-- The `for connection in ...: await connection.send_json(message)` loop:
returns the connections reached before the first failing send, and whether a
send raised (aborting the loop and propagating). -/
def sendLoop (fails : Nat → Bool) : List Nat → List Nat × Bool
  | [] => ([], false)
  | c :: rest =>
    if fails c then ([], true)
    else
      let r := sendLoop fails rest
      (c :: r.1, r.2)

/-- `broadcast`: iterate the group's connection list, no-op when the group key
is absent. -/
def ConnectionManager.broadcast (m : ConnectionManager) (g : Nat) (fails : Nat → Bool) :
    List Nat × Bool :=
  match alookup g m.active_connections with
  | none => ([], false)
  | some l => sendLoop fails l

/-- The action dispatch inside `update_video_state` (everything except the
final `last_updated` stamp).  `action` is `message_data.get("video_action")`,
hence optional; `if video_name:` is Python truthiness (absent or `""` falsy). -/
def applyVideoAction (s : VideoState) (action : Option String)
    (video_name : Option String) (video_time : Option Int) : VideoState :=
  if action = some "play" then
    let s1 := { s with is_playing := some true }
    let s2 := match video_time with
              | some t => { s1 with video_time := some t }
              | none => s1
    match video_name with
    | some n => if n = "" then s2 else { s2 with video_name := some n }
    | none => s2
  else if action = some "pause" then
    let s1 := { s with is_playing := some false }
    match video_time with
    | some t => { s1 with video_time := some t }
    | none => s1
  else if action = some "seek" then
    match video_time with
    | some t => { s with video_time := some t }
    | none => s
  else if action = some "change_video" then
    { s with video_name := video_name,
             video_time := some (video_time.getD 0),
             is_playing := some (s.is_playing.getD false) }
  else
    s

/-- `update_video_state`: fetch (or create empty) the group's dict, dispatch
on the action, and always stamp `last_updated` with the current time. -/
def ConnectionManager.update_video_state (m : ConnectionManager) (g : Nat)
    (action : Option String) (video_name : Option String) (video_time : Option Int)
    (now : Nat) : ConnectionManager :=
  let s := (alookup g m.group_video_state).getD VideoState.empty
  let s' := { applyVideoAction s action video_name video_time with last_updated := some now }
  { m with group_video_state := aset g s' m.group_video_state }

/-- `get_video_state`. -/
def ConnectionManager.get_video_state (m : ConnectionManager) (g : Nat) : Option VideoState :=
  alookup g m.group_video_state

/-- A typed inbound websocket frame (`message_data` after `json.loads`); every
field the endpoint reads, each possibly absent. -/
structure ChatFrame where
  text : Option String
  user : Option String
  group_id : Option Nat
  type : Option String
  video_action : Option String
  video_name : Option String
  video_time : Option Int
deriving Repr, DecidableEq

/-- The validated pydantic `MessageCreate` model (src/chat/schemas.py). -/
structure MessageCreate where
  text : String
  user : String
  group_id : Option Nat
  type : String
  video_action : Option String
  video_name : Option String
  video_time : Option Int
deriving Repr, DecidableEq

/-- The `Literal["message", "add", "leave", "video_control"]` constraint on
`MessageCreate.type`. -/
def validTypeLit (s : String) : Bool :=
  s = "message" || s = "add" || s = "leave" || s = "video_control"

/-- The `Optional[Literal["play", "pause", "seek", "change_video"]]` constraint
on `MessageCreate.video_action`. -/
def validActionLit : Option String → Bool
  | none => true
  | some s => s = "play" || s = "pause" || s = "seek" || s = "change_video"

/-- Pydantic validation `MessageCreate(**message_data)`: `text` and `type` must
be present strings satisfying the Literal constraints; `none` models the raised
`ValidationError`. -/
def mkMessageCreate (text : Option String) (user : String) (gid : Option Nat)
    (ty : Option String) (va vn : Option String) (vt : Option Int) :
    Option MessageCreate :=
  match text, ty with
  | some t, some y =>
    if validTypeLit y && validActionLit va then
      some ⟨t, user, gid, y, va, vn, vt⟩
    else none
  | _, _ => none

/-- The persisted MongoDB document built by `create_message` (video fields are
not part of the document). -/
structure Document where
  text : String
  user : String
  group_id : Option Nat
  type : String
  created_at : Nat
  updated_at : Nat
deriving Repr, DecidableEq

/-- `create_message` on a successful `insert_one`: the document it stores and
returns (store failure is modelled at the call sites by `storeOk = false`,
since a failing `insert_one` raises). -/
def create_message (msg : MessageCreate) (now : Nat) : Document :=
  ⟨msg.text, msg.user, msg.group_id, msg.type, now, now⟩

/-- A frame sent from server to a client. -/
inductive OutMsg where
  | videoSync (video_name : String) (video_time : Int) (is_playing : Bool)
  | videoControl (user : String) (group_id : Nat) (video_action video_name : Option String)
      (video_time : Option Int) (timestamp : Nat)
  | chatDoc (doc : Document)
  | userLeft (message : String)
deriving Repr, DecidableEq

/-- The author field of an outbound frame, where it has one. -/
def OutMsg.author : OutMsg → Option String
  | .videoControl u _ _ _ _ _ => some u
  | .chatDoc d => some d.user
  | _ => none

/-- Result of one iteration of the endpoint's receive loop: updated manager,
the sends performed as (recipient, frame) pairs, the document persisted (if
any), and whether an exception escaped the loop body. -/
structure ProcResult where
  mgr : ConnectionManager
  sent : List (Nat × OutMsg)
  persisted : Option Document
  exn : Bool
deriving Repr, DecidableEq

/-- Line 138 of main.py: the frame's `group_id` survives only when truthy
(`0` and absent are falsy), otherwise the URL path's group id is used. -/
def effectiveGroupId (urlGid : Nat) : Option Nat → Nat
  | none => urlGid
  | some 0 => urlGid
  | some g => g

/-- One iteration of the websocket receive loop on frame `f`
(main.py lines 136-185): override `group_id`/`user`, then either the
`video_control` branch (update state, broadcast ephemeral control record to
the URL group) or the chat branch (force type `message`, validate, persist,
and broadcast the stored document only on successful persistence). -/
def processFrame (m : ConnectionManager) (urlGid : Nat) (userEmail : String)
    (f : ChatFrame) (storeOk : Bool) (now : Nat) (fails : Nat → Bool) : ProcResult :=
  let gid := effectiveGroupId urlGid f.group_id
  if f.type.getD "message" = "video_control" then
    let m' := m.update_video_state urlGid f.video_action f.video_name f.video_time now
    let record := OutMsg.videoControl userEmail urlGid f.video_action f.video_name
      f.video_time now
    let r := m'.broadcast urlGid fails
    { mgr := m', sent := r.1.map (fun c => (c, record)), persisted := none, exn := r.2 }
  else
    match mkMessageCreate f.text userEmail (some gid) (some "message")
        f.video_action f.video_name f.video_time with
    | none => { mgr := m, sent := [], persisted := none, exn := true }
    | some msg =>
      if storeOk then
        let doc := create_message msg now
        let r := m.broadcast urlGid fails
        { mgr := m, sent := r.1.map (fun c => (c, OutMsg.chatDoc doc)),
          persisted := some doc, exn := r.2 }
      else
        { mgr := m, sent := [], persisted := none, exn := true }

/-- The one-shot sync sent right after `manager.connect` (main.py lines
118-128): present exactly when the group's video state exists and has a truthy
`video_name`. -/
def joinSync (m : ConnectionManager) (g : Nat) : Option OutMsg :=
  match m.get_video_state g with
  | none => none
  | some s =>
    match s.video_name with
    | none => none
    | some n =>
      if n = "" then none
      else some (.videoSync n (s.video_time.getD 0) (s.is_playing.getD false))

/-- A client joining group `g`: `manager.connect` followed by the personal
`video_sync` send (to this connection only), before the receive loop starts. -/
def sessionJoin (m : ConnectionManager) (ws g : Nat) :
    ConnectionManager × List (Nat × OutMsg) :=
  let m' := m.connect ws g
  match joinSync m' g with
  | some msg => (m', [(ws, msg)])
  | none => (m', [])

/-- Why the receive loop ended. -/
inductive TermCause where
  | remoteClose
  | unhandledError
deriving Repr, DecidableEq

/-- Session teardown (main.py lines 187-196): both except-branches call
`manager.disconnect`, but only the `WebSocketDisconnect` branch then
broadcasts the `user_left` notice; a `ValueError` escaping `disconnect`
prevents any further cleanup. -/
def sessionTerminate (m : ConnectionManager) (ws g : Nat) (cause : TermCause)
    (fails : Nat → Bool) : ConnectionManager × List (Nat × OutMsg) :=
  match m.disconnect ws g with
  | .error _ => (m, [])
  | .ok m' =>
    match cause with
    | .remoteClose =>
      let r := m'.broadcast g fails
      (m', r.1.map (fun c =>
        (c, OutMsg.userLeft ("User disconnected from group " ++ toString g))))
    | .unhandledError => (m', [])

/-- A membership-change event as decoded from the Redis bus payload. -/
structure BusEvent where
  type : Option String
  group_id : Option Nat
  text : Option String
deriving Repr, DecidableEq

/-- One iteration of `redis_subscriber` on a decoded event (main.py lines
213-243): rebuild as `{type, text, user: "system", group_id}`, validate,
persist, then broadcast the stored document to the event's group id; any
failure (validation or store) is caught by the inner except and skipped. -/
def handleBusEvent (m : ConnectionManager) (store : List Document) (ev : BusEvent)
    (storeOk : Bool) (now : Nat) (fails : Nat → Bool) :
    List Document × List (Nat × OutMsg) :=
  match mkMessageCreate ev.text "system" ev.group_id ev.type none none none with
  | none => (store, [])
  | some msg =>
    if storeOk then
      let doc := create_message msg now
      let delivered := match ev.group_id with
                       | some g => (m.broadcast g fails).1
                       | none => []
      (store ++ [doc], delivered.map (fun c => (c, OutMsg.chatDoc doc)))
    else
      (store, [])

/-- Insert into a created_at-descending list, after any earlier entry with an
equal or larger timestamp. -/
def insertDesc (d : Document) : List Document → List Document
  | [] => [d]
  | x :: xs => if d.created_at ≤ x.created_at then x :: insertDesc d xs else d :: x :: xs

/-- Sort a store newest-first by `created_at`. -/
def sortDesc : List Document → List Document
  | [] => []
  | x :: xs => insertDesc x (sortDesc xs)

/-- `GET /messages` (main.py lines 59-68): up to 100 documents, newest first. -/
def get_messages (store : List Document) : List Document :=
  (sortDesc store).take 100

/-- The connections currently live in group `g`. -/
def connsOf (m : ConnectionManager) (g : Nat) : List Nat :=
  (alookup g m.active_connections).getD []

theorem removeFirst_eq_none (x : Nat) (l : List Nat) (h : x ∉ l) :
    removeFirst x l = none := by
  induction l with
  | nil => rfl
  | cons y rest ih =>
    have hy : ¬y = x := fun hh => h (hh ▸ List.mem_cons_self y rest)
    have hr : x ∉ rest := fun hh => h (List.mem_cons_of_mem y hh)
    simp [removeFirst, hy, ih hr]

theorem removeFirst_isSome (x : Nat) (l : List Nat) (h : x ∈ l) :
    ∃ l', removeFirst x l = some l' := by
  induction l with
  | nil => cases h
  | cons y rest ih =>
    by_cases hy : y = x
    · exact ⟨rest, by simp [removeFirst, hy]⟩
    · have hr : x ∈ rest := by
        cases List.mem_cons.mp h with
        | inl hh => exact absurd hh.symm hy
        | inr hh => exact hh
      obtain ⟨l', hl'⟩ := ih hr
      exact ⟨y :: l', by simp [removeFirst, hy, hl']⟩

theorem sendLoop_all_ok (fails : Nat → Bool) (l : List Nat)
    (h : ∀ c ∈ l, fails c = false) : sendLoop fails l = (l, false) := by
  induction l with
  | nil => rfl
  | cons c rest ih =>
    have hc : fails c = false := h c (List.mem_cons_self c rest)
    have hr := ih (fun d hd => h d (List.mem_cons_of_mem c hd))
    simp [sendLoop, hc, hr]

theorem sendLoop_first_fail (fails : Nat → Bool) (l1 l2 : List Nat) (k : Nat)
    (h1 : ∀ c ∈ l1, fails c = false) (hk : fails k = true) :
    sendLoop fails (l1 ++ k :: l2) = (l1, true) := by
  induction l1 with
  | nil => simp [sendLoop, hk]
  | cons c rest ih =>
    have hc : fails c = false := h1 c (List.mem_cons_self c rest)
    have hr := ih (fun d hd => h1 d (List.mem_cons_of_mem c hd))
    simp [sendLoop, hc, hr]

theorem sortDesc_append_newest (store : List Document) (d : Document)
    (h : ∀ x ∈ store, x.created_at < d.created_at) :
    sortDesc (store ++ [d]) = d :: sortDesc store := by
  induction store with
  | nil => rfl
  | cons x xs ih =>
    have hx : x.created_at < d.created_at := h x (List.mem_cons_self x xs)
    have hxs := ih (fun y hy => h y (List.mem_cons_of_mem x hy))
    have hle : x.created_at ≤ d.created_at := Nat.le_of_lt hx
    simp [sortDesc, hxs, insertDesc, hle]

theorem mem_get_messages_newest (store : List Document) (d : Document)
    (h : ∀ x ∈ store, x.created_at < d.created_at) :
    d ∈ get_messages (store ++ [d]) := by
  rw [get_messages, sortDesc_append_newest store d h, List.take_succ_cons]
  exact List.mem_cons_self d _

/-- States of the manager reachable by the operations the endpoint actually
performs: `connect`, `disconnect` (a raised `ValueError` leaves the state
unchanged, hence needs no constructor), and `update_video_state`, which in
main.py is only invoked from a session's receive loop, i.e. while that
session's connection is registered in the group. -/
inductive Reachable : ConnectionManager → Prop where
  | init : Reachable ConnectionManager.empty
  | connect (m : ConnectionManager) (ws g : Nat) :
      Reachable m → Reachable (m.connect ws g)
  | disconnectOk (m m' : ConnectionManager) (ws g : Nat) :
      Reachable m → m.disconnect ws g = .ok m' → Reachable m'
  | update (m : ConnectionManager) (g : Nat) (a vn : Option String) (vt : Option Int)
      (now : Nat) (l : List Nat) :
      Reachable m → alookup g m.active_connections = some l →
      Reachable (m.update_video_state g a vn vt now)

/-- The registry invariant: every registered group has a non-empty connection
list, and a group with no room entry holds no video state. -/
def RegistryInv (m : ConnectionManager) : Prop :=
  (∀ g l, alookup g m.active_connections = some l → l ≠ []) ∧
  (∀ g, alookup g m.active_connections = none → alookup g m.group_video_state = none)

theorem inv_of_reachable (m : ConnectionManager) (hm : Reachable m) : RegistryInv m := by
  induction hm with
  | init => exact ⟨fun g l h => (nomatch h), fun g _ => rfl⟩
  | connect m ws g _ ih =>
    obtain ⟨ih1, ih2⟩ := ih
    unfold ConnectionManager.connect
    constructor
    · intro g' l' hl'
      cases hg : alookup g m.active_connections with
      | none =>
        simp only [hg] at hl'
        by_cases hgg : g' = g
        · subst hgg
          rw [alookup_aset_self] at hl'
          cases hl'
          simp
        · rw [alookup_aset_ne g' g hgg] at hl'
          exact ih1 g' l' hl'
      | some l =>
        simp only [hg] at hl'
        by_cases hgg : g' = g
        · subst hgg
          rw [alookup_aset_self] at hl'
          cases hl'
          simp
        · rw [alookup_aset_ne g' g hgg] at hl'
          exact ih1 g' l' hl'
    · intro g' hg'
      cases hg : alookup g m.active_connections with
      | none =>
        simp only [hg] at hg'
        by_cases hgg : g' = g
        · subst hgg
          rw [alookup_aset_self] at hg'
          cases hg'
        · rw [alookup_aset_ne g' g hgg] at hg'
          exact ih2 g' hg'
      | some l =>
        simp only [hg] at hg'
        by_cases hgg : g' = g
        · subst hgg
          rw [alookup_aset_self] at hg'
          cases hg'
        · rw [alookup_aset_ne g' g hgg] at hg'
          exact ih2 g' hg'
  | disconnectOk m m' ws g _ hdis ih =>
    obtain ⟨ih1, ih2⟩ := ih
    unfold ConnectionManager.disconnect at hdis
    cases hg : alookup g m.active_connections with
    | none =>
      simp only [hg] at hdis
      cases hdis
      exact ⟨ih1, ih2⟩
    | some l =>
      simp only [hg] at hdis
      cases hrem : removeFirst ws l with
      | none =>
        simp only [hrem] at hdis
        exact absurd hdis (by simp)
      | some l' =>
        simp only [hrem] at hdis
        by_cases hl' : l' = []
        · simp only [hl', if_pos rfl] at hdis
          cases hdis
          constructor
          · intro g' l'' hl''
            by_cases hgg : g' = g
            · subst hgg
              rw [alookup_aerase_self] at hl''
              cases hl''
            · rw [alookup_aerase_ne g' g hgg] at hl''
              exact ih1 g' l'' hl''
          · intro g' _
            by_cases hgg : g' = g
            · subst hgg
              exact alookup_aerase_self g' _
            · rename_i hg'
              rw [alookup_aerase_ne g' g hgg] at hg' ⊢
              exact ih2 g' hg'
        · simp only [if_neg hl'] at hdis
          cases hdis
          constructor
          · intro g' l'' hl''
            by_cases hgg : g' = g
            · subst hgg
              rw [alookup_aset_self] at hl''
              cases hl''
              exact hl'
            · rw [alookup_aset_ne g' g hgg] at hl''
              exact ih1 g' l'' hl''
          · intro g' hg'
            by_cases hgg : g' = g
            · subst hgg
              rw [alookup_aset_self] at hg'
              cases hg'
            · rw [alookup_aset_ne g' g hgg] at hg'
              exact ih2 g' hg'
  | update m g a vn vt now l _ hl ih =>
    obtain ⟨ih1, ih2⟩ := ih
    unfold ConnectionManager.update_video_state
    refine ⟨ih1, fun g' hg' => ?_⟩
    by_cases hgg : g' = g
    · subst hgg
      rw [hl] at hg'
      cases hg'
    · simp only
      rw [alookup_aset_ne g' g hgg]
      exact ih2 g' hg'

theorem applyVideoAction_unknown (s : VideoState) (a vn : Option String) (vt : Option Int)
    (h1 : a ≠ some "play") (h2 : a ≠ some "pause") (h3 : a ≠ some "seek")
    (h4 : a ≠ some "change_video") :
    applyVideoAction s a vn vt = s := by
  unfold applyVideoAction
  rw [if_neg h1, if_neg h2, if_neg h3, if_neg h4]

theorem broadcast_all_ok (m : ConnectionManager) (g : Nat) :
    m.broadcast g (fun _ => false) = (connsOf m g, false) := by
  unfold ConnectionManager.broadcast connsOf
  cases alookup g m.active_connections with
  | none => rfl
  | some l => simp [sendLoop_all_ok (fun _ => false) l (fun c _ => rfl)]

theorem mkMessageCreate_inv (text : Option String) (user : String) (gid : Option Nat)
    (ty va vn : Option String) (vt : Option Int) (msg : MessageCreate)
    (h : mkMessageCreate text user gid ty va vn vt = some msg) :
    msg.user = user ∧ msg.group_id = gid ∧ msg.video_action = va := by
  cases text with
  | none => simp [mkMessageCreate] at h
  | some t =>
    cases ty with
    | none => simp [mkMessageCreate] at h
    | some y =>
      simp only [mkMessageCreate] at h
      by_cases hc : (validTypeLit y && validActionLit va) = true
      · rw [if_pos hc] at h
        cases h
        exact ⟨rfl, rfl, rfl⟩
      · rw [if_neg hc] at h
        cases h

theorem effectiveGroupId_truthy (urlGid fg : Nat) (h : fg ≠ 0) :
    effectiveGroupId urlGid (some fg) = fg := by
  cases fg with
  | zero => exact absurd rfl h
  | succ k => rfl

/-- C1 counterexample: with connection 7 registered in group 1, `disconnect`
of the absent connection 9 raises (`list.remove` raises `ValueError`), so
`leave` is neither idempotent nor exception-free. -/
theorem C1_counterexample :
    (ConnectionManager.empty.connect 7 1).disconnect 9 1 = Except.error () := rfl

/-- C1 (amended): `disconnect` returns without error when the group id has no
room at all, but when the room exists and the connection is already absent
from its list, the underlying `list.remove` raises `ValueError` (the registry
is left unchanged by the raise). -/
theorem C1_leave_amended (m : ConnectionManager) (ws g : Nat) :
    (alookup g m.active_connections = none → m.disconnect ws g = .ok m) ∧
    (∀ l, alookup g m.active_connections = some l → ws ∉ l →
      m.disconnect ws g = .error ()) := by
  constructor
  · intro h
    simp only [ConnectionManager.disconnect, h]
  · intro l hl hm
    simp only [ConnectionManager.disconnect, hl, removeFirst_eq_none ws l hm]

/-- C1 witness: `disconnect` on the empty registry succeeds; `disconnect` of
an absent connection in a live room errors. -/
theorem C1_leave_amended_witness :
    ConnectionManager.empty.disconnect 3 4 = .ok ConnectionManager.empty ∧
    (ConnectionManager.empty.connect 7 1).disconnect 9 1 = .error () :=
  ⟨(C1_leave_amended ConnectionManager.empty 3 4).1 rfl,
   (C1_leave_amended (ConnectionManager.empty.connect 7 1) 9 1).2 [7] rfl (by decide)⟩

/-- C2 counterexample: group 5 holds connections [1, 2]; a send failure on
connection 1 yields no deliveries at all (connection 2 is skipped) and the
exception propagates out of `broadcast`. -/
theorem C2_counterexample :
    connsOf ((ConnectionManager.empty.connect 1 5).connect 2 5) 5 = [1, 2] ∧
    ((ConnectionManager.empty.connect 1 5).connect 2 5).broadcast 5 (fun c => c == 1)
      = ([], true) :=
  ⟨rfl, rfl⟩

/-- C2 (amended): a send failure on connection `k` during a broadcast delivers
only to the connections registered before `k`, skips every connection after
`k`, and propagates the exception upward (the bare `send_json` loop has no
per-connection isolation). -/
theorem C2_broadcast_amended (m : ConnectionManager) (g : Nat) (fails : Nat → Bool)
    (l1 l2 : List Nat) (k : Nat)
    (hconn : alookup g m.active_connections = some (l1 ++ k :: l2))
    (h1 : ∀ c ∈ l1, fails c = false) (hk : fails k = true) :
    m.broadcast g fails = (l1, true) := by
  unfold ConnectionManager.broadcast
  rw [hconn]
  exact sendLoop_first_fail fails l1 l2 k h1 hk

/-- C2 witness: group 5 holds [1, 2, 3], connection 2 fails: only connection 1
is delivered to and the exception escapes. -/
theorem C2_broadcast_amended_witness :
    (((ConnectionManager.empty.connect 1 5).connect 2 5).connect 3 5).broadcast 5
      (fun c => c == 2) = ([1], true) :=
  C2_broadcast_amended (((ConnectionManager.empty.connect 1 5).connect 2 5).connect 3 5)
    5 (fun c => c == 2) [1] [3] 2 rfl (by decide) rfl

/-- C4 counterexample: with no prior playback state for group 5, an unknown
action `"foo"` is not a no-op: it materializes a state entry and stamps
`last_updated`, so the group's playback state does not remain unchanged. -/
theorem C4_counterexample :
    ConnectionManager.empty.get_video_state 5 = none ∧
    (ConnectionManager.empty.update_video_state 5 (some "foo") none none 77).get_video_state 5
      = some ⟨none, none, none, some 77⟩ :=
  ⟨rfl, rfl⟩

/-- C4 (amended): for an action outside play/pause/seek/change_video,
`update_video_state` leaves the playback fields (`video_name`, `video_time`,
`is_playing`) of the group exactly as before (an absent state counting as the
empty dict), but always stamps `last_updated = now`, materializing the
group's entry when absent; connections and other groups' states are
untouched. -/
theorem C4_unknown_action_amended (m : ConnectionManager) (g : Nat)
    (a vn : Option String) (vt : Option Int) (now : Nat)
    (h1 : a ≠ some "play") (h2 : a ≠ some "pause") (h3 : a ≠ some "seek")
    (h4 : a ≠ some "change_video") :
    (m.update_video_state g a vn vt now).get_video_state g =
      some { (m.get_video_state g).getD VideoState.empty with last_updated := some now } ∧
    (m.update_video_state g a vn vt now).active_connections = m.active_connections ∧
    (∀ g', g' ≠ g →
      (m.update_video_state g a vn vt now).get_video_state g' = m.get_video_state g') := by
  refine ⟨?_, rfl, ?_⟩
  · simp only [ConnectionManager.update_video_state, ConnectionManager.get_video_state,
      applyVideoAction_unknown _ a vn vt h1 h2 h3 h4, alookup_aset_self]
  · intro g' hg'
    simp only [ConnectionManager.update_video_state, ConnectionManager.get_video_state]
    exact alookup_aset_ne g' g hg' _ _

/-- C4 witness: unknown action `"foo"` at time 77 on a group with prior state
keeps the playback fields and stamps only the timestamp. -/
theorem C4_unknown_action_amended_witness :
    ((ConnectionManager.empty.update_video_state 5 (some "change_video")
        (some "a.mp4") none 3).update_video_state 5 (some "foo") none none 77).get_video_state 5
      = some { ((ConnectionManager.empty.update_video_state 5 (some "change_video")
          (some "a.mp4") none 3).get_video_state 5).getD VideoState.empty with
            last_updated := some 77 } :=
  (C4_unknown_action_amended
    (ConnectionManager.empty.update_video_state 5 (some "change_video") (some "a.mp4") none 3)
    5 (some "foo") none none 77
    (by decide) (by decide) (by decide) (by decide)).1

/-- C3: in every reachable registry state, group sizes are non-negative and a
group's size is zero exactly when it has no room entry; a group without a room
entry holds no playback state (so the state vanishes the moment the last
connection leaves); and a join to such a group starts with playback state
absent and exactly the one new connection registered. -/
theorem C3_room_lifecycle (m : ConnectionManager) (hm : Reachable m) :
    (∀ g, 0 ≤ (connsOf m g).length) ∧
    (∀ g, (connsOf m g).length = 0 ↔ alookup g m.active_connections = none) ∧
    (∀ g, alookup g m.active_connections = none → m.get_video_state g = none) ∧
    (∀ g ws, alookup g m.active_connections = none →
      (m.connect ws g).get_video_state g = none ∧ connsOf (m.connect ws g) g = [ws]) := by
  obtain ⟨h1, h2⟩ := inv_of_reachable m hm
  refine ⟨fun g => Nat.zero_le _, fun g => ?_, fun g h => h2 g h, fun g ws hg => ?_⟩
  · cases hg : alookup g m.active_connections with
    | none => simp [connsOf, hg]
    | some l =>
      have hne := h1 g l hg
      simp [connsOf, hg, List.length_eq_zero, hne]
  · constructor
    · show alookup g (m.connect ws g).group_video_state = none
      simp only [ConnectionManager.connect, hg]
      exact h2 g hg
    · simp only [connsOf, ConnectionManager.connect, hg, alookup_aset_self, Option.getD_some]

/-- C3 witness: from the empty registry, joining group 9 starts with playback
state absent and connection set [4]. -/
theorem C3_room_lifecycle_witness :
    (ConnectionManager.empty.connect 4 9).get_video_state 9 = none ∧
    connsOf (ConnectionManager.empty.connect 4 9) 9 = [4] :=
  (C3_room_lifecycle ConnectionManager.empty Reachable.init).2.2.2 9 4 rfl

theorem processFrame_video (m : ConnectionManager) (urlGid : Nat) (userEmail : String)
    (f : ChatFrame) (storeOk : Bool) (now : Nat) (fails : Nat → Bool)
    (hty : f.type.getD "message" = "video_control") :
    processFrame m urlGid userEmail f storeOk now fails =
      { mgr := m.update_video_state urlGid f.video_action f.video_name f.video_time now,
        sent := ((m.update_video_state urlGid f.video_action f.video_name f.video_time
            now).broadcast urlGid fails).1.map
          (fun c => (c, OutMsg.videoControl userEmail urlGid f.video_action f.video_name
            f.video_time now)),
        persisted := none,
        exn := ((m.update_video_state urlGid f.video_action f.video_name f.video_time
            now).broadcast urlGid fails).2 } := by
  unfold processFrame
  rw [if_pos hty]

theorem processFrame_chat_ok (m : ConnectionManager) (urlGid : Nat) (userEmail : String)
    (f : ChatFrame) (now : Nat) (fails : Nat → Bool) (msg : MessageCreate)
    (hty : ¬f.type.getD "message" = "video_control")
    (hmk : mkMessageCreate f.text userEmail (some (effectiveGroupId urlGid f.group_id))
      (some "message") f.video_action f.video_name f.video_time = some msg) :
    processFrame m urlGid userEmail f true now fails =
      { mgr := m,
        sent := (m.broadcast urlGid fails).1.map
          (fun c => (c, OutMsg.chatDoc (create_message msg now))),
        persisted := some (create_message msg now),
        exn := (m.broadcast urlGid fails).2 } := by
  unfold processFrame
  rw [if_neg hty, hmk]
  rfl

theorem processFrame_chat_invalid (m : ConnectionManager) (urlGid : Nat)
    (userEmail : String) (f : ChatFrame) (storeOk : Bool) (now : Nat) (fails : Nat → Bool)
    (hty : ¬f.type.getD "message" = "video_control")
    (hmk : mkMessageCreate f.text userEmail (some (effectiveGroupId urlGid f.group_id))
      (some "message") f.video_action f.video_name f.video_time = none) :
    processFrame m urlGid userEmail f storeOk now fails =
      { mgr := m, sent := [], persisted := none, exn := true } := by
  unfold processFrame
  rw [if_neg hty, hmk]

theorem processFrame_chat_storefail (m : ConnectionManager) (urlGid : Nat)
    (userEmail : String) (f : ChatFrame) (now : Nat) (fails : Nat → Bool)
    (msg : MessageCreate)
    (hty : ¬f.type.getD "message" = "video_control")
    (hmk : mkMessageCreate f.text userEmail (some (effectiveGroupId urlGid f.group_id))
      (some "message") f.video_action f.video_name f.video_time = some msg) :
    processFrame m urlGid userEmail f false now fails =
      { mgr := m, sent := [], persisted := none, exn := true } := by
  unfold processFrame
  rw [if_neg hty, hmk]
  rfl

/-- C5: the client-supplied `user` field of an inbound frame has no influence
on the loop iteration's result, and the author of the persisted document and
of every broadcast record equals the session's authenticated identity. -/
theorem C5_author_identity (m : ConnectionManager) (urlGid : Nat) (userEmail : String)
    (f : ChatFrame) (storeOk : Bool) (now : Nat) (fails : Nat → Bool) (u : Option String) :
    processFrame m urlGid userEmail { f with user := u } storeOk now fails =
      processFrame m urlGid userEmail f storeOk now fails ∧
    (∀ doc, (processFrame m urlGid userEmail f storeOk now fails).persisted = some doc →
      doc.user = userEmail) ∧
    (∀ p ∈ (processFrame m urlGid userEmail f storeOk now fails).sent,
      p.2.author = some userEmail) := by
  refine ⟨by cases f; rfl, ?_, ?_⟩
  · intro doc hdoc
    by_cases hty : f.type.getD "message" = "video_control"
    · rw [processFrame_video m urlGid userEmail f storeOk now fails hty] at hdoc
      simp at hdoc
    · cases hmk : mkMessageCreate f.text userEmail
          (some (effectiveGroupId urlGid f.group_id)) (some "message")
          f.video_action f.video_name f.video_time with
      | none =>
        rw [processFrame_chat_invalid m urlGid userEmail f storeOk now fails hty hmk] at hdoc
        simp at hdoc
      | some msg =>
        cases storeOk with
        | false =>
          rw [processFrame_chat_storefail m urlGid userEmail f now fails msg hty hmk] at hdoc
          simp at hdoc
        | true =>
          rw [processFrame_chat_ok m urlGid userEmail f now fails msg hty hmk] at hdoc
          have h : some (create_message msg now) = some doc := hdoc
          injection h with h2
          rw [← h2]
          exact (mkMessageCreate_inv _ _ _ _ _ _ _ _ hmk).1
  · intro p hp
    by_cases hty : f.type.getD "message" = "video_control"
    · rw [processFrame_video m urlGid userEmail f storeOk now fails hty] at hp
      have h : p ∈ ((m.update_video_state urlGid f.video_action f.video_name f.video_time
          now).broadcast urlGid fails).1.map
            (fun c => (c, OutMsg.videoControl userEmail urlGid f.video_action f.video_name
              f.video_time now)) := hp
      simp only [List.mem_map] at h
      obtain ⟨c, _, hc⟩ := h
      rw [← hc]
      rfl
    · cases hmk : mkMessageCreate f.text userEmail
          (some (effectiveGroupId urlGid f.group_id)) (some "message")
          f.video_action f.video_name f.video_time with
      | none =>
        rw [processFrame_chat_invalid m urlGid userEmail f storeOk now fails hty hmk] at hp
        simp at hp
      | some msg =>
        cases storeOk with
        | false =>
          rw [processFrame_chat_storefail m urlGid userEmail f now fails msg hty hmk] at hp
          simp at hp
        | true =>
          rw [processFrame_chat_ok m urlGid userEmail f now fails msg hty hmk] at hp
          have h : p ∈ (m.broadcast urlGid fails).1.map
              (fun c => (c, OutMsg.chatDoc (create_message msg now))) := hp
          simp only [List.mem_map] at h
          obtain ⟨c, _, hc⟩ := h
          rw [← hc]
          show some msg.user = some userEmail
          rw [(mkMessageCreate_inv _ _ _ _ _ _ _ _ hmk).1]

/-- C5 witness: with session identity "a@x.com" in group 7, a frame carrying
`user: "evil"` processes identically to the same frame without it, and the
persisted document's author is "a@x.com". -/
theorem C5_author_identity_witness :
    processFrame (ConnectionManager.empty.connect 1 7) 7 "a@x.com"
        ⟨some "hi", some "evil", none, none, none, none, none⟩ true 5 (fun _ => false) =
      processFrame (ConnectionManager.empty.connect 1 7) 7 "a@x.com"
        ⟨some "hi", none, none, none, none, none, none⟩ true 5 (fun _ => false) ∧
    Document.user ⟨"hi", "a@x.com", some 7, "message", 5, 5⟩ = "a@x.com" := by
  have h := C5_author_identity (ConnectionManager.empty.connect 1 7) 7 "a@x.com"
    ⟨some "hi", none, none, none, none, none, none⟩ true 5 (fun _ => false) (some "evil")
  exact ⟨h.1, h.2.1 ⟨"hi", "a@x.com", some 7, "message", 5, 5⟩ rfl⟩

/-- C6: a chat-classified frame whose store append fails is neither broadcast
to any connection (sender included) nor recorded as persisted. -/
theorem C6_store_failure_no_broadcast (m : ConnectionManager) (urlGid : Nat)
    (userEmail : String) (f : ChatFrame) (now : Nat) (fails : Nat → Bool)
    (hchat : f.type.getD "message" ≠ "video_control") :
    (processFrame m urlGid userEmail f false now fails).sent = [] ∧
    (processFrame m urlGid userEmail f false now fails).persisted = none := by
  cases hmk : mkMessageCreate f.text userEmail
      (some (effectiveGroupId urlGid f.group_id)) (some "message")
      f.video_action f.video_name f.video_time with
  | none =>
    rw [processFrame_chat_invalid m urlGid userEmail f false now fails hchat hmk]
    exact ⟨rfl, rfl⟩
  | some msg =>
    rw [processFrame_chat_storefail m urlGid userEmail f now fails msg hchat hmk]
    exact ⟨rfl, rfl⟩

/-- C6 witness: a chat frame in a two-member room under store failure yields
no deliveries and nothing persisted. -/
theorem C6_store_failure_no_broadcast_witness :
    (processFrame ((ConnectionManager.empty.connect 1 7).connect 2 7) 7 "a@x.com"
        ⟨some "hi", none, none, none, none, none, none⟩ false 5 (fun _ => false)).sent = [] ∧
    (processFrame ((ConnectionManager.empty.connect 1 7).connect 2 7) 7 "a@x.com"
        ⟨some "hi", none, none, none, none, none, none⟩ false 5 (fun _ => false)).persisted
      = none :=
  C6_store_failure_no_broadcast ((ConnectionManager.empty.connect 1 7).connect 2 7) 7
    "a@x.com" ⟨some "hi", none, none, none, none, none, none⟩ 5 (fun _ => false) (by decide)

/-- C7: on a group with no prior playback state, a `change_video` control with
media name `n` (and no position) sets the state to
{video_name = n, video_time = 0, is_playing = false} (stamped at `now`), and a
client that then joins the group receives, as its sole pre-loop traffic, a
personal `video_sync` frame carrying exactly that name, position 0 and
is_playing = false. -/
theorem C7_change_video_then_sync (m : ConnectionManager) (g ws : Nat) (e n : String)
    (now : Nat) (fails : Nat → Bool)
    (hstate : m.get_video_state g = none) (hn : n ≠ "") :
    (processFrame m g e ⟨none, none, none, some "video_control", some "change_video",
        some n, none⟩ true now fails).mgr.get_video_state g =
      some ⟨some n, some 0, some false, some now⟩ ∧
    sessionJoin (processFrame m g e ⟨none, none, none, some "video_control",
        some "change_video", some n, none⟩ true now fails).mgr ws g =
      ((processFrame m g e ⟨none, none, none, some "video_control", some "change_video",
        some n, none⟩ true now fails).mgr.connect ws g,
       [(ws, OutMsg.videoSync n 0 false)]) := by
  have hmgr : (processFrame m g e ⟨none, none, none, some "video_control",
      some "change_video", some n, none⟩ true now fails).mgr =
      m.update_video_state g (some "change_video") (some n) none now := by
    rw [processFrame_video m g e ⟨none, none, none, some "video_control",
      some "change_video", some n, none⟩ true now fails rfl]
  have h1 : (processFrame m g e ⟨none, none, none, some "video_control",
      some "change_video", some n, none⟩ true now fails).mgr.get_video_state g =
      some ⟨some n, some 0, some false, some now⟩ := by
    rw [hmgr]
    unfold ConnectionManager.get_video_state at hstate
    simp only [ConnectionManager.update_video_state, ConnectionManager.get_video_state,
      hstate, Option.getD_none, alookup_aset_self]
    simp [applyVideoAction, VideoState.empty]
  refine ⟨h1, ?_⟩
  have h3 : ((processFrame m g e ⟨none, none, none, some "video_control",
      some "change_video", some n, none⟩ true now fails).mgr.connect ws g).get_video_state g
      = some ⟨some n, some 0, some false, some now⟩ := by
    rw [← h1]
    show alookup g _ = alookup g _
    unfold ConnectionManager.connect
    cases alookup g (processFrame m g e ⟨none, none, none, some "video_control",
        some "change_video", some n, none⟩ true now fails).mgr.active_connections <;> rfl
  simp [sessionJoin, joinSync, h3, hn]

/-- C7 witness: group 7 with no prior state, `change_video` to "intro.mp4",
then client 2 joins and gets exactly the one-shot sync frame. -/
theorem C7_change_video_then_sync_witness :
    (processFrame (ConnectionManager.empty.connect 1 7) 7 "a@x.com"
        ⟨none, none, none, some "video_control", some "change_video", some "intro.mp4",
          none⟩ true 4 (fun _ => false)).mgr.get_video_state 7 =
      some ⟨some "intro.mp4", some 0, some false, some 4⟩ ∧
    sessionJoin (processFrame (ConnectionManager.empty.connect 1 7) 7 "a@x.com"
        ⟨none, none, none, some "video_control", some "change_video", some "intro.mp4",
          none⟩ true 4 (fun _ => false)).mgr 2 7 =
      ((processFrame (ConnectionManager.empty.connect 1 7) 7 "a@x.com"
        ⟨none, none, none, some "video_control", some "change_video", some "intro.mp4",
          none⟩ true 4 (fun _ => false)).mgr.connect 2 7,
       [(2, OutMsg.videoSync "intro.mp4" 0 false)]) :=
  C7_change_video_then_sync (ConnectionManager.empty.connect 1 7) 7 2 "a@x.com"
    "intro.mp4" 4 (fun _ => false) rfl (by decide)

/-- C8 counterexample: group 3 holds connections [1, 2]; connection 1's
session terminates by unhandled error: `leave` runs (2 remains registered)
but no `user_left` notice is broadcast to the remaining member, refuting the
claim for the unhandled-error path. -/
theorem C8_counterexample :
    sessionTerminate ((ConnectionManager.empty.connect 1 3).connect 2 3) 1 3
        TermCause.unhandledError (fun _ => false) =
      (⟨[(3, [2])], []⟩, []) := rfl

/-- C8 (amended): when a registered connection's session terminates,
`manager.disconnect` always completes first (its result is independent of any
later cleanup failure); on remote close a `user_left` notice is then broadcast
to the remaining members, but on an unhandled error no `user_left` notice is
sent at all. -/
theorem C8_terminate_amended (m : ConnectionManager) (ws g : Nat) (fails : Nat → Bool)
    (l : List Nat) (hl : alookup g m.active_connections = some l) (hws : ws ∈ l) :
    ∃ m', m.disconnect ws g = .ok m' ∧
      sessionTerminate m ws g .remoteClose fails =
        (m', (m'.broadcast g fails).1.map (fun c =>
          (c, OutMsg.userLeft ("User disconnected from group " ++ toString g)))) ∧
      sessionTerminate m ws g .unhandledError fails = (m', []) := by
  obtain ⟨l', hrem⟩ := removeFirst_isSome ws l hws
  have hdis : ∃ m', m.disconnect ws g = .ok m' := by
    simp only [ConnectionManager.disconnect, hl, hrem]
    by_cases h : l' = []
    · rw [if_pos h]
      exact ⟨_, rfl⟩
    · rw [if_neg h]
      exact ⟨_, rfl⟩
  obtain ⟨m', hm'⟩ := hdis
  refine ⟨m', hm', ?_, ?_⟩
  · unfold sessionTerminate
    rw [hm']
  · unfold sessionTerminate
    rw [hm']

/-- C8 witness: remote close of connection 1 in group 3 = {1, 2}: leave
completes and the remaining connection 2 receives the `user_left` notice. -/
theorem C8_terminate_amended_witness :
    sessionTerminate ((ConnectionManager.empty.connect 1 3).connect 2 3) 1 3
        TermCause.remoteClose (fun _ => false) =
      (⟨[(3, [2])], []⟩, [(2, OutMsg.userLeft "User disconnected from group 3")]) := by
  obtain ⟨m', h1, h2, h3⟩ :=
    C8_terminate_amended ((ConnectionManager.empty.connect 1 3).connect 2 3) 1 3
      (fun _ => false) [1, 2] rfl (by decide)
  have h6 : ((ConnectionManager.empty.connect 1 3).connect 2 3).disconnect 1 3 =
      Except.ok (⟨[(3, [2])], []⟩ : ConnectionManager) := rfl
  rw [h6] at h1
  injection h1 with h4
  rw [← h4] at h2
  rw [h2]
  rfl

/-- C9: a well-formed membership event (type add/leave, text, group id) under
a healthy store appends a document authored "system" with the event's text,
then broadcasts exactly that document to every connection live in the group;
the document is afterwards retrievable via the history query; and with a
failing store nothing is appended or broadcast (persist-before-broadcast). -/
theorem C9_notification_bridge (m : ConnectionManager) (store : List Document)
    (g : Nat) (ty t : String) (now : Nat)
    (hty : ty = "add" ∨ ty = "leave")
    (hfresh : ∀ d ∈ store, d.created_at < now) :
    handleBusEvent m store ⟨some ty, some g, some t⟩ true now (fun _ => false) =
      (store ++ [⟨t, "system", some g, ty, now, now⟩],
       (connsOf m g).map (fun c => (c, OutMsg.chatDoc ⟨t, "system", some g, ty, now, now⟩))) ∧
    (⟨t, "system", some g, ty, now, now⟩ : Document) ∈
      get_messages (store ++ [⟨t, "system", some g, ty, now, now⟩]) ∧
    handleBusEvent m store ⟨some ty, some g, some t⟩ false now (fun _ => false) =
      (store, []) := by
  have hvalid : (validTypeLit ty && validActionLit none) = true := by
    rcases hty with h | h <;> rw [h] <;> rfl
  have hmk : mkMessageCreate (some t) "system" (some g) (some ty) none none none =
      some ⟨t, "system", some g, ty, none, none, none⟩ := by
    simp only [mkMessageCreate]
    rw [if_pos hvalid]
  refine ⟨?_, mem_get_messages_newest store _ hfresh, ?_⟩
  · simp only [handleBusEvent, hmk, broadcast_all_ok]
    rfl
  · simp only [handleBusEvent, hmk]
    rfl

/-- C9 witness: event {add, group 7, "Bob added"} while connections 1 and 2
are live in group 7 and the store holds one older document. -/
theorem C9_notification_bridge_witness :
    handleBusEvent ((ConnectionManager.empty.connect 1 7).connect 2 7)
        [⟨"old", "u", some 7, "message", 0, 0⟩] ⟨some "add", some 7, some "Bob added"⟩
        true 5 (fun _ => false) =
      ([⟨"old", "u", some 7, "message", 0, 0⟩, ⟨"Bob added", "system", some 7, "add", 5, 5⟩],
       [(1, OutMsg.chatDoc ⟨"Bob added", "system", some 7, "add", 5, 5⟩),
        (2, OutMsg.chatDoc ⟨"Bob added", "system", some 7, "add", 5, 5⟩)]) ∧
    (⟨"Bob added", "system", some 7, "add", 5, 5⟩ : Document) ∈
      get_messages [⟨"old", "u", some 7, "message", 0, 0⟩,
        ⟨"Bob added", "system", some 7, "add", 5, 5⟩] := by
  have h := C9_notification_bridge ((ConnectionManager.empty.connect 1 7).connect 2 7)
    [⟨"old", "u", some 7, "message", 0, 0⟩] 7 "add" "Bob added" 5 (Or.inl rfl) (by decide)
  exact ⟨h.1, h.2.1⟩

/-- C10: a chat frame carrying a truthy `group_id` different from the URL's is
persisted under the frame-supplied group id, while the broadcast still goes to
the URL group's connections — a session can file durable records under another
group's id. -/
theorem C10_group_id_divergence (m : ConnectionManager) (urlGid : Nat)
    (userEmail : String) (f : ChatFrame) (now : Nat) (fg : Nat) (t : String)
    (hfg : f.group_id = some fg) (hfg0 : fg ≠ 0)
    (hty : f.type.getD "message" ≠ "video_control")
    (ht : f.text = some t) (hva : validActionLit f.video_action = true) :
    (processFrame m urlGid userEmail f true now (fun _ => false)).persisted =
      some ⟨t, userEmail, some fg, "message", now, now⟩ ∧
    (processFrame m urlGid userEmail f true now (fun _ => false)).sent =
      (connsOf m urlGid).map
        (fun c => (c, OutMsg.chatDoc ⟨t, userEmail, some fg, "message", now, now⟩)) := by
  have hmk : mkMessageCreate f.text userEmail (some (effectiveGroupId urlGid f.group_id))
      (some "message") f.video_action f.video_name f.video_time =
      some ⟨t, userEmail, some fg, "message", f.video_action, f.video_name, f.video_time⟩ := by
    rw [ht, hfg, effectiveGroupId_truthy urlGid fg hfg0]
    simp only [mkMessageCreate]
    rw [if_pos (show (validTypeLit "message" && validActionLit f.video_action) = true by
      simp [validTypeLit, hva])]
  rw [processFrame_chat_ok m urlGid userEmail f now (fun _ => false) _ hty hmk,
    broadcast_all_ok]
  exact ⟨rfl, rfl⟩

/-- C10 witness: session in URL group 7 (sole connection 1) sends a frame with
`group_id: 9`; the persisted record carries group 9 but the broadcast reaches
group 7's connection. -/
theorem C10_group_id_divergence_witness :
    (processFrame (ConnectionManager.empty.connect 1 7) 7 "a@x.com"
        ⟨some "hi", none, some 9, none, none, none, none⟩ true 5
        (fun _ => false)).persisted = some ⟨"hi", "a@x.com", some 9, "message", 5, 5⟩ ∧
    (processFrame (ConnectionManager.empty.connect 1 7) 7 "a@x.com"
        ⟨some "hi", none, some 9, none, none, none, none⟩ true 5
        (fun _ => false)).sent =
      [(1, OutMsg.chatDoc ⟨"hi", "a@x.com", some 9, "message", 5, 5⟩)] :=
  C10_group_id_divergence (ConnectionManager.empty.connect 1 7) 7 "a@x.com"
    ⟨some "hi", none, some 9, none, none, none, none⟩ 5 9 "hi"
    rfl (by decide) (by decide) rfl rfl
